import Mathlib

/-!
Verification of the diurnal-extrema extraction engine (src/diurnal.py).

Shallow embedding conventions:
* Timestamps are modelled as `Int`, the number of seconds since the epoch
  (the source works at second resolution: `to_exact_indexing` documents
  "the exact indexing of the input window (second resolution)").
* Signal values are modelled as `ℚ` (an idealisation of Python floats;
  the signal contains no NaN after `dropna()` at construction).
* A pandas Series is a `List (Int × ℚ)` of (timestamp, value) pairs with
  strictly increasing timestamps (the Signal invariant from the data model).
* Missing cells (None / NaN in a DataFrame column) are `Option.none`.
* Python exceptions are modelled with `Except PyErr`; the constructor names
  match the Python exception class raised at the corresponding place.
* `random.randint(1, len(subset)-1)` in `to_exact_indexing` is modelled by a
  `pick : ℕ` parameter clamped into the interval `[1, len-1]`; every clamped
  value corresponds to a possible draw and every possible draw to a clamped
  value, so quantifying over `pick` quantifies over the nondeterminism.
-/

/-- Python exception classes raised by the code paths modelled here. -/
inductive PyErr where
  | valueError
  | typeError
  | keyError
  | indexError
  | nameError
  | attributeError
  | zeroDivisionError
deriving DecidableEq, Repr

/-- Decidable equality for modelled Python results, so that concrete runs
can be evaluated inside proofs. -/
instance {ε α : Type} [DecidableEq ε] [DecidableEq α] : DecidableEq (Except ε α) :=
  fun x y =>
    match x, y with
    | .error a, .error b =>
      if h : a = b then .isTrue (by rw [h])
      else .isFalse (fun hc => h (Except.error.inj hc))
    | .error _, .ok _ => .isFalse (fun hc => Except.noConfusion hc)
    | .ok _, .error _ => .isFalse (fun hc => Except.noConfusion hc)
    | .ok a, .ok b =>
      if h : a = b then .isTrue (by rw [h])
      else .isFalse (fun hc => h (Except.ok.inj hc))

/-- The mode argument of the extremum search; the source passes the
strings min and max (already validated by check_input). -/
inductive Mm where
  | min
  | max
deriving DecidableEq, Repr

/-- A string window bound: the literal markers first / last, or a
calendar-date string (represented by the start-of-day timestamp it parses
to with pd.to_datetime). -/
inductive StrB where
  | first
  | last
  | dateStr (d : Int)
deriving DecidableEq, Repr

/-- One element of a tuple/list window specification: a pd.Timestamp, a
string, or a value of any other Python type (neither Timestamp nor str). -/
inductive BoundV where
  | ts (t : Int)
  | str (s : StrB)
  | other
deriving DecidableEq, Repr

/-- A window specification as accepted by to_exact_indexing: a tuple/list
of bounds, a pd.Period for a calendar day (represented by its start-of-day
timestamp), an integer day count, or a value of any other type. -/
inductive WinSpec where
  | pair (l : List BoundV)
  | period (dayS : Int)
  | nat (n : ℕ)
  | other
deriving DecidableEq, Repr

/-- A row of the result DataFrame built by find_diurnal_extrema: the four
per-day fields, each possibly missing (None, stored as NaN by pandas). -/
structure Row where
  min_val : Option ℚ
  min_time : Option Int
  max_val : Option ℚ
  max_time : Option Int
deriving DecidableEq, Repr

/-- Constructor configuration of DiurnalExtrema (the options the claims
exercise; plotting and station label are out of scope). -/
structure Config where
  minfirst : Bool
  maxnextday : Bool
  predictTiming : Bool
  window : ℕ
  threshold : Option ℚ
deriving DecidableEq, Repr

/-- A timeseries: (timestamp, value) samples, timestamps strictly
increasing. -/
abbrev TS := List (Int × ℚ)

/-- Start-of-day timestamp of the calendar day containing t
(ts.index.to_period, Period.to_timestamp how=s). -/
def dayStart (t : Int) : Int := (Int.fdiv t 86400) * 86400

/-- make_end_of_day: timestamp.replace(hour=23, minute=59, second=59). -/
def make_end_of_day (t : Int) : Int := dayStart t + 86399

/-- Timestamp.ceil to a positive grid of g seconds (anchored at the epoch,
as pandas rounds T and s frequencies). -/
def ceilG (t g : Int) : Int := -(Int.fdiv (-t) g) * g

/-- Timestamp.floor to a positive grid of g seconds. -/
def floorG (t g : Int) : Int := (Int.fdiv t g) * g

/-- The resolution grid, in seconds, that to_exact_indexing builds from an
adjacent-sample gap: the minutes component of the Timedelta as a T
frequency, or, when the minutes component is zero, the seconds component as
an s frequency.  A whole-hour gap therefore yields 0 (the string 0s). -/
def gridRes (gap : Int) : Int :=
  let m := (Int.fdiv gap 60) % 60
  if m ≠ 0 then m * 60 else gap % 60

/-- Label-based slicing ts[lo:hi] of a pandas Series with a sorted
DatetimeIndex: both endpoints inclusive. -/
def labelSlice (ts : TS) (lo hi : Int) : TS :=
  ts.filter (fun p => decide (lo ≤ p.1) && decide (p.1 ≤ hi))

/-- Normalisation of one Python slice endpoint: negative indices count from
the end, and the result is clamped into [0, n]. -/
def pyIdx (n : ℕ) (i : Int) : ℕ :=
  if i < 0 then (i + n).toNat else Min.min i.toNat n

/-- Python positional slicing l[a:b] (as used by ts[bound_idx-5:bound_idx+5]
in bool_check_around_bound), including the wrap-around of negative
indices. -/
def pySlice {α : Type} (l : List α) (a b : Int) : List α :=
  (l.take (pyIdx l.length b)).drop (pyIdx l.length a)

/-- Series.min paired with Series.idxmin: the smallest value and the
timestamp of its first occurrence; none on an empty series (where idxmin
raises). -/
def listMinVT (l : TS) : Option (ℚ × Int) :=
  l.foldl
    (fun acc p =>
      match acc with
      | none => some (p.2, p.1)
      | some (v, t) => if p.2 < v then some (p.2, p.1) else some (v, t))
    none

/-- Series.max paired with Series.idxmax: the largest value and the
timestamp of its first occurrence. -/
def listMaxVT (l : TS) : Option (ℚ × Int) :=
  l.foldl
    (fun acc p =>
      match acc with
      | none => some (p.2, p.1)
      | some (v, t) => if v < p.2 then some (p.2, p.1) else some (v, t))
    none

/-- DatetimeIndex.get_loc for a unique sorted index: the position of the
exact timestamp, none (a KeyError) when absent. -/
def getLoc (ts : TS) (b : Int) : Option ℕ :=
  ts.findIdx? (fun p => p.1 = b)

/-- Structural worker for uniqDays; the fuel is an upper bound on the list
length, so it never runs out when called with the length itself. -/
def uniqDaysAux : ℕ → List Int → List Int
  | 0, _ => []
  | _, [] => []
  | Nat.succ n, a :: rest => a :: uniqDaysAux n (rest.filter (fun x => x ≠ a))

/-- Index.unique over the per-sample day periods: first-occurrence order. -/
def uniqDays (l : List Int) : List Int := uniqDaysAux l.length l

/-- Python truthiness of a float-or-None cell: None and 0.0 are falsy. -/
def pyTruthyQ : Option ℚ → Bool
  | none => false
  | some q => decide (q ≠ 0)

/-- Round a rational to the nearest integer, ties to even (the rounding
used by pandas Timestamp.round and Python round). -/
def roundHalfEven (q : ℚ) : Int :=
  let f := q.floor
  if q - (f : ℚ) < 1/2 then f
  else if (1:ℚ)/2 < q - (f : ℚ) then f + 1
  else if f % 2 = 0 then f else f + 1

/-- Timestamp.round to the hour (H frequency), ties to even. -/
def roundHr (t : Int) : Int :=
  let q := Int.fdiv t 3600
  let r := t - 3600 * q
  if 2 * r < 3600 then 3600 * q
  else if 3600 < 2 * r then 3600 * (q + 1)
  else if q % 2 = 0 then 3600 * q else 3600 * (q + 1)

/-- The hour attribute (0-23) of a timestamp rounded to the hour, as
computed by add_occurance. -/
def hourOfRounded (t : Int) : Int := (Int.fdiv (roundHr t) 3600) % 24

/-- Python round(x, 3): round to 3 decimal places, ties to even. -/
def round3 (q : ℚ) : ℚ := (roundHalfEven (q * 1000) : ℚ) / 1000

/-- Arithmetic mean of a list of integers, as a rational. -/
def intListMean (l : List Int) : ℚ :=
  ((l.foldl (· + ·) 0 : Int) : ℚ) / (l.length : ℚ)

/-- start_before_end (src/diurnal.py:444-455): True when both arguments are
timestamps with start strictly before end; ValueError when end is not after
start; TypeError when either argument is not a timestamp. -/
def start_before_end (a b : BoundV) : Except PyErr Bool :=
  match a, b with
  | .ts s, .ts e => if s < e then .ok true else .error .valueError
  | _, _ => .error .typeError

/-- pd.to_datetime applied to a string bound: a calendar-date string parses
to its start-of-day timestamp; the literal markers first / last are not
parseable dates and raise (a ValueError subclass). -/
def parseDate : StrB → Except PyErr Int
  | .dateStr d => .ok d
  | _ => .error .valueError

/-- The dispatch part of to_exact_indexing (src/diurnal.py:536-560): turn
the window specification into the (start, end) pair of local variables that
the function then slices with.  A tuple of two timestamps is validated with
start_before_end; a tuple of two strings is converted; a mixed tuple falls
through with both elements untouched; a list of the wrong length raises
ValueError from check_length; a specification of any other type leaves
start and end unbound, so the later slicing line raises
UnboundLocalError (a NameError). -/
def computeStartEnd (w : WinSpec) (ts : TS) : Except PyErr (BoundV × BoundV) :=
  match w with
  | .pair l =>
    match l with
    | [a, b] =>
      match a, b with
      | .ts _, .ts _ =>
        match start_before_end a b with
        | .error e => .error e
        | .ok _ => .ok (a, b)
      | .str sa, .str sb =>
        match sa with
        | .first =>
          match ts with
          | [] => .error .indexError
          | p :: _ =>
            match parseDate sb with
            | .error e => .error e
            | .ok eb => .ok (.ts p.1, .ts (make_end_of_day eb))
        | _ =>
          match sb with
          | .last =>
            match ts.getLast? with
            | none => .error .indexError
            | some q =>
              match parseDate sa with
              | .error e => .error e
              | .ok sa2 => .ok (.ts sa2, .ts q.1)
          | _ =>
            match parseDate sa with
            | .error e => .error e
            | .ok sa2 =>
              match parseDate sb with
              | .error e => .error e
              | .ok eb => .ok (.ts sa2, .ts (make_end_of_day eb))
      | _, _ => .ok (a, b)
    | _ => .error .valueError
  | .period d => .ok (.ts d, .ts (d + 86399))
  | .nat n =>
    match ts with
    | [] => .error .indexError
    | p :: _ => .ok (.ts p.1, .ts (make_end_of_day (p.1 + (n : Int) * 86400)))
  | .other => .error .nameError

/-- The key a bound contributes as the lower end of a label slice
ts[start:end]: a timestamp slices from itself; a date string uses partial
string indexing from the start of that day; the literal strings first/last
fail to parse; any other type raises TypeError inside pandas. -/
def sliceLo : BoundV → Except PyErr Int
  | .ts t => .ok t
  | .str (.dateStr d) => .ok d
  | .str _ => .error .valueError
  | .other => .error .typeError

/-- The key a bound contributes as the upper end of a label slice: a date
string is inclusive of the whole day under partial string indexing. -/
def sliceHi : BoundV → Except PyErr Int
  | .ts t => .ok t
  | .str (.dateStr d) => .ok (d + 86399)
  | .str _ => .error .valueError
  | .other => .error .typeError

/-- start.ceil(window_res): only a timestamp has a ceil attribute (a
leftover string or other object raises AttributeError); a zero-second grid
(the 0s frequency built from a whole-hour gap) raises ValueError
(division by zero in rounding) inside pandas. -/
def bCeil (b : BoundV) (g : Int) : Except PyErr Int :=
  match b with
  | .ts t => if g = 0 then .error .valueError else .ok (ceilG t g)
  | _ => .error .attributeError

/-- end.floor(window_res), same conventions as bCeil. -/
def bFloor (b : BoundV) (g : Int) : Except PyErr Int :=
  match b with
  | .ts t => if g = 0 then .error .valueError else .ok (floorG t g)
  | _ => .error .attributeError

/-- The resolution-matching part of to_exact_indexing
(src/diurnal.py:562-575): slice the series to [start, end]; with fewer than
3 samples return None (no data); otherwise pick one adjacent sample pair
(the randint draw, modelled by clamping pick into [1, len-1]), build the
grid from its gap and return (start rounded up, end rounded down). -/
def resolveAndAlign (pick : ℕ) (sb eb : BoundV) (ts : TS) :
    Except PyErr (Option (Int × Int)) :=
  match sliceLo sb with
  | .error e => .error e
  | .ok lo =>
    match sliceHi eb with
    | .error e => .error e
    | .ok hi =>
      let subset := labelSlice ts lo hi
      if 2 < subset.length then
        let i := Min.min (Max.max 1 pick) (subset.length - 1)
        let g := gridRes ((subset.getD i (0, 0)).1 - (subset.getD (i - 1) (0, 0)).1)
        match bCeil sb g with
        | .error e => .error e
        | .ok s2 =>
          match bFloor eb g with
          | .error e => .error e
          | .ok e2 => .ok (some (s2, e2))
      else .ok none

/-- to_exact_indexing (src/diurnal.py:521-575): dispatch on the window
specification, then align to the sampled resolution. -/
def to_exact_indexing (pick : ℕ) (w : WinSpec) (ts : TS) :
    Except PyErr (Option (Int × Int)) :=
  match computeStartEnd w ts with
  | .error e => .error e
  | .ok (a, b) => resolveAndAlign pick a b ts

/-- get_index_of_bound (src/diurnal.py:495-497): the first (for the start)
or last (for the end) sample timestamp inside the window slice; IndexError
on an empty slice. -/
def get_index_of_bound (ts : TS) (w : Int × Int) (isEnd : Bool) : Except PyErr Int :=
  let subset := labelSlice ts w.1 w.2
  match (if isEnd then subset.getLast? else subset.head?) with
  | none => .error .indexError
  | some p => .ok p.1

/-- The bound examined for one window edge in on_boundary: the edge
timestamp itself when it is a sample, otherwise the nearest in-range sample
at that edge. -/
def resolveBound (ts : TS) (w : Int × Int) (isStart : Bool) : Except PyErr Int :=
  let b := if isStart then w.1 else w.2
  if ts.any (fun p => decide (p.1 = b)) then .ok b
  else get_index_of_bound ts w (!isStart)

/-- The extremum recomputed over a slice, per the mode: the min/idxmin or
max/idxmax pair. -/
def recomputeExtr (nb : TS) (mm : Mm) : Option (ℚ × Int) :=
  match mm with
  | .max => listMaxVT nb
  | .min => listMinVT nb

/-- bool_check_around_bound (src/diurnal.py:500-518): positional slice
ts[bound_idx-5:bound_idx+5] (Python semantics, so a negative start index
wraps); fewer than 3 samples in it rejects the pick; otherwise recompute
the extremum there and accept when its timestamp equals the candidate
timestamp or its value equals the candidate value (the source writes
new_tup[0] in extrema_tup, and the comparison of the recomputed float
value with the candidate Timestamp is always unequal across types). -/
def bool_check_around_bound (ts : TS) (bound : Int) (ext : ℚ × Int) (mm : Mm) :
    Except PyErr Bool :=
  match getLoc ts bound with
  | none => .error .keyError
  | some i =>
    let subset := pySlice ts ((i : Int) - 5) ((i : Int) + 5)
    if subset.length < 3 then .ok false
    else
      match recomputeExtr subset mm with
      | none => .ok false
      | some (nv, nt) => .ok (decide (nt = ext.2) || decide (nv = ext.1))

/-- on_boundary (src/diurnal.py:458-492) parametrised by the local
neighbourhood re-check applied at a boundary hit: the loop checks the start
edge, and the body for the end edge runs only while boundary_ok is still
true. -/
def on_boundaryW (chk : Int → Except PyErr Bool) (ts : TS) (w : Int × Int)
    (extT : Int) : Except PyErr Bool :=
  match resolveBound ts w true with
  | .error e => .error e
  | .ok b1 =>
    match (if b1 = extT then chk b1 else .ok true) with
    | .error e => .error e
    | .ok ok1 =>
      if ok1 then
        match resolveBound ts w false with
        | .error e => .error e
        | .ok b2 => if b2 = extT then chk b2 else .ok true
      else .ok false

/-- on_boundary with the real re-check, bool_check_around_bound. -/
def on_boundary (ts : TS) (w : Int × Int) (ext : ℚ × Int) (mm : Mm) :
    Except PyErr Bool :=
  on_boundaryW (fun b => bool_check_around_bound ts b ext mm) ts w ext.2

/-- get_extrema (src/diurnal.py:342-348): (value, time of occurrence) of
the extremum; idxmin/idxmax raise ValueError on an empty slice. -/
def get_extrema (sl : TS) (mm : Mm) : Except PyErr (ℚ × Int) :=
  match recomputeExtr sl mm with
  | none => .error .valueError
  | some p => .ok p

/-- get_real_extrema (src/diurnal.py:314-340): resolve the window; a
no-data window yields (None, None); otherwise locate the extremum in the
sliced window and discard it (None, None) when on_boundary rejects it. -/
def get_real_extrema (pick : ℕ) (ts : TS) (w : WinSpec) (mm : Mm) :
    Except PyErr (Option ℚ × Option Int) :=
  match to_exact_indexing pick w ts with
  | .error e => .error e
  | .ok none => .ok (none, none)
  | .ok (some (s, e)) =>
    match get_extrema (labelSlice ts s e) mm with
    | .error er => .error er
    | .ok (v, t) =>
      match on_boundary ts (s, e) (v, t) mm with
      | .error er => .error er
      | .ok ok => if ok then .ok (some v, some t) else .ok (none, none)

/-- add_occurance (src/diurnal.py:416-423): round the occurrence time to
the nearest hour and append its hour attribute; a None occurrence has no
round attribute and raises AttributeError. -/
def add_occurance (t? : Option Int) (l : List Int) : Except PyErr (List Int) :=
  match t? with
  | none => .error .attributeError
  | some t => .ok (l ++ [hourOfRounded t])

/-- mean_occurance (src/diurnal.py:389-390): round(sum(list)/len(list), 3);
an empty list raises ZeroDivisionError. -/
def mean_occurance (l : List Int) : Except PyErr ℚ :=
  if l.isEmpty then .error .zeroDivisionError
  else .ok (round3 (intListMean l))

/-- The per-day loop of predict_extrema (src/diurnal.py:296-311): for every
day of the calibration slice, find the minimum in the day window, then the
maximum either in the 18-hour window after a found minimum (when minfirst
and maxnextday, a found Timestamp being always truthy) or in the day
window, and append both rounded occurrence hours. -/
def collectOccurs (pick : ℕ) (cfg : Config) (calib : TS) (days : List Int) :
    Except PyErr (List Int × List Int) :=
  days.foldlM
    (fun acc d =>
      match get_real_extrema pick calib (.period d) .min with
      | .error e => .error e
      | .ok (_, mnt) =>
        match
          (match mnt, cfg.minfirst && cfg.maxnextday with
           | some t, true =>
             get_real_extrema pick calib (.pair [.ts t, .ts (t + 64800)]) .max
           | _, _ => get_real_extrema pick calib (.period d) .max) with
        | .error e => .error e
        | .ok (_, mxt) =>
          match add_occurance mnt acc.1 with
          | .error e => .error e
          | .ok l1 =>
            match add_occurance mxt acc.2 with
            | .error e => .error e
            | .ok l2 => .ok (l1, l2))
    ([], [])

/-- predict_extrema (src/diurnal.py:280-312): resolve the calibration
window from the integer window parameter; the line
start_time, end_time = to_exact_indexing(...) unpacks the result, so a
None (no data) result raises TypeError before the empty-slice ValueError
check is reached; otherwise collect the per-day occurrence hours over the
calibration slice and return the two 3-decimal means. -/
def predict_extrema (pick : ℕ) (cfg : Config) (ts : TS) : Except PyErr (ℚ × ℚ) :=
  match to_exact_indexing pick (.nat cfg.window) ts with
  | .error e => .error e
  | .ok none => .error .typeError
  | .ok (some (s, e)) =>
    let calib := labelSlice ts s e
    if calib.isEmpty then .error .valueError
    else
      match collectOccurs pick cfg calib (uniqDays (calib.map (fun p => dayStart p.1))) with
      | .error er => .error er
      | .ok (l1, l2) =>
        match mean_occurance l1 with
        | .error er => .error er
        | .ok m1 =>
          match mean_occurance l2 with
          | .error er => .error er
          | .ok m2 => .ok (m1, m2)

/-- create_timewindow (src/diurnal.py:410-413): day start plus
center-minus-numhours and center-plus-numhours hours, rounded to whole
seconds (ties to even; with an integral day start this equals rounding the
offsets). -/
def create_timewindow (d : Int) (center numh : ℚ) : Int × Int :=
  (d + roundHalfEven ((center - numh) * 3600),
   d + roundHalfEven ((center + numh) * 3600))

/-- One iteration of find_diurnal_extrema (src/diurnal.py:174-202) for the
day d: the four located fields, before the retention check.  In predictive
mode the two 8-hour-radius windows come from the predicted hours (pe), and
the maximum window start is clamped to a found minimum time when minfirst
and the window starts earlier.  In non-predictive mode the minimum is
searched in the day window; with minfirst and maxnextday the maximum is
searched in minTime + 18 hours, and a None minTime makes
minTime + pd.Timedelta(hours=18) raise TypeError. -/
def processDay (pick : ℕ) (cfg : Config) (ts : TS) (pe : Option (ℚ × ℚ))
    (d : Int) : Except PyErr (Option ℚ × Option Int × Option ℚ × Option Int) :=
  match pe with
  | some (minOcc, maxOcc) =>
    let minW := create_timewindow d minOcc 8
    let maxW0 := create_timewindow d maxOcc 8
    match get_real_extrema pick ts (.pair [.ts minW.1, .ts minW.2]) .min with
    | .error e => .error e
    | .ok (mnv, mnt) =>
      let maxW :=
        match cfg.minfirst, mnt with
        | true, some t => if maxW0.1 < t then (t, maxW0.2) else maxW0
        | _, _ => maxW0
      match get_real_extrema pick ts (.pair [.ts maxW.1, .ts maxW.2]) .max with
      | .error e => .error e
      | .ok (mxv, mxt) => .ok (mnv, mnt, mxv, mxt)
  | none =>
    match get_real_extrema pick ts (.period d) .min with
    | .error e => .error e
    | .ok (mnv, mnt) =>
      if cfg.minfirst && cfg.maxnextday then
        match mnt with
        | none => .error .typeError
        | some t =>
          match get_real_extrema pick ts (.pair [.ts t, .ts (t + 64800)]) .max with
          | .error e => .error e
          | .ok (mxv, mxt) => .ok (mnv, mnt, mxv, mxt)
      else
        match get_real_extrema pick ts (.period d) .max with
        | .error e => .error e
        | .ok (mxv, mxt) => .ok (mnv, mnt, mxv, mxt)

/-- The retention check of find_diurnal_extrema (src/diurnal.py:204-205):
if maxVal and minVal and minVal > maxVal: continue.  The operands are
floats or None, so Python truthiness makes both None and 0.0 bypass the
comparison. -/
def discardDay (mnv mxv : Option ℚ) : Bool :=
  pyTruthyQ mxv && pyTruthyQ mnv &&
    (match mnv, mxv with
     | some a, some b => decide (b < a)
     | _, _ => false)

/-- apply_threshold (src/diurnal.py:218-222): with a configured threshold,
drop the rows whose max_val - min_val is strictly below it.  A missing
extremum is NaN in the DataFrame, NaN arithmetic yields NaN, and
NaN < threshold is False, so such rows are kept. -/
def ampLtB (r : Row) (t : ℚ) : Bool :=
  match r.max_val, r.min_val with
  | some a, some b => decide (a - b < t)
  | _, _ => false

/-- apply_threshold on the result table (threshold None leaves it
unchanged). -/
def apply_threshold (thr : Option ℚ) (df : List (Int × Row)) : List (Int × Row) :=
  match thr with
  | none => df
  | some t => df.filter (fun p => ! ampLtB p.2 t)

/-- find_diurnal_extrema (src/diurnal.py:173-216): iterate over the unique
calendar days of the index (in predictive mode the cached predicted hours
are computed once), locate the per-day extrema, apply the retention check,
build the DataFrame (an empty record list makes set_index raise KeyError)
and apply the threshold filter. -/
def find_diurnal_extrema (pick : ℕ) (cfg : Config) (ts : TS) :
    Except PyErr (List (Int × Row)) :=
  let days := uniqDays (ts.map (fun p => dayStart p.1))
  if days.isEmpty then .error .keyError
  else
    let peE : Except PyErr (Option (ℚ × ℚ)) :=
      if cfg.predictTiming then
        match predict_extrema pick cfg ts with
        | .error e => .error e
        | .ok p => .ok (some p)
      else .ok none
    match peE with
    | .error e => .error e
    | .ok pe =>
      let step : List (Int × Row) → Int → Except PyErr (List (Int × Row)) :=
        fun acc d =>
          match processDay pick cfg ts pe d with
          | .error e => .error e
          | .ok (mnv, mnt, mxv, mxt) =>
            if discardDay mnv mxv then .ok acc
            else .ok (acc ++ [(d, ⟨mnv, mnt, mxv, mxt⟩)])
      match days.foldlM step [] with
      | .error e => .error e
      | .ok rows =>
        if rows.isEmpty then .error .keyError
        else .ok (apply_threshold cfg.threshold rows)

/-- A Python value stored into a DataFrame cell by change_extrema_picks:
a float, a Timestamp, a whole (float, Timestamp) tuple, or None. -/
inductive PyVal where
  | num (q : ℚ)
  | time (t : Int)
  | pairVT (q : ℚ) (t : Int)
  | pynone
deriving DecidableEq, Repr

/-- A row of the result table as mutated by change_extrema_picks; the cell
type admits the tuple that the source assigns into the value cell. -/
structure PRow where
  min_val : PyVal
  min_time : PyVal
  max_val : PyVal
  max_time : PyVal
deriving DecidableEq, Repr

/-- The which argument of change_extrema_picks, validated by check_input
against min, max, both. -/
inductive Which where
  | min
  | max
  | both
deriving DecidableEq, Repr

/-- Field update performed by the final loop of change_extrema_picks: set
the value and time cells of the selected extrema. -/
def setField (r : PRow) (w : Which) (v tm : PyVal) : PRow :=
  match w with
  | .min => { r with min_val := v, min_time := tm }
  | .max => { r with max_val := v, max_time := tm }
  | .both => { r with min_val := v, min_time := tm, max_val := v, max_time := tm }

/-- change_extrema_picks (src/diurnal.py:224-278) on the explicit
new_extrema path (find_between absent).  A day missing from the
period-indexed table raises ValueError.  The line
value, time = new_extrema if isinstance(new_extrema, tuple) else None, None
parses as value = (new_extrema if ... else None) and time = None, so a
tuple argument is stored whole into the value cell and None into the time
cell; the model treats the cell assignment as storing the assigned
object. -/
def change_extrema_picks (df : List (Int × PRow)) (day : Int) (w : Which)
    (new_extrema : Option (ℚ × Int)) : Except PyErr (List (Int × PRow)) :=
  if df.any (fun p => decide (p.1 = day)) then
    let v : PyVal := match new_extrema with | some (a, t) => .pairVT a t | none => .pynone
    .ok (df.map (fun p => if p.1 = day then (p.1, setField p.2 w v .pynone) else p))
  else .error .valueError

/-- Sample values of one calendar day of the C1 signal: samples every 90
minutes, diurnal minimum 5 at 03:00, maximum 20 at 21:00. -/
def dayValsA : List ℚ := [10, 7, 5, 6, 7, 8, 8, 8, 12, 14, 16, 17, 18, 19, 20, 12]

/-- Third-day values of the C1 signal: minimum 5 at 03:00, but the
afternoon holds only non-positive values with largest value exactly 0 at
18:00. -/
def dayValsB : List ℚ := [10, 7, 5, 6, 7, 8, 8, 8, 2, -3, -2, -1, 0, -1, -2, -4]

/-- One day of samples at 90-minute spacing starting at the day start d. -/
def mkDay (d : Int) (vals : List ℚ) : TS :=
  (List.range vals.length).zipWith (fun k v => (d + (k : Int) * 5400, v)) vals

/-- The three-day signal exhibiting the truthiness bug of the retention
check: two calibration-shaped days followed by a day whose maximum is
exactly 0.0. -/
def tsC1 : TS := mkDay 0 dayValsA ++ mkDay 86400 dayValsA ++ mkDay 172800 dayValsB

/-- Predictive configuration with a one-day calibration window and no
threshold. -/
def cfgC1 : Config := ⟨true, true, true, 1, none⟩

/-- A signal whose only day holds two samples: the day window resolves to
no data, so the minimum search yields (None, None). -/
def tsTwoSamples : TS := [(0, 1), (1800, 2)]

/-- Default non-predictive configuration (minfirst and maxnextday on). -/
def cfgDefault : Config := ⟨true, true, false, 4, none⟩

/-- Twelve minute-spaced samples whose first sample 5 is the global
minimum; the remaining values increase. -/
def tsC4 : TS :=
  [(0, 5), (60, 6), (120, 7), (180, 8), (240, 9), (300, 10), (360, 11),
   (420, 12), (480, 13), (540, 14), (600, 15), (660, 16)]

/-- Four hourly samples: every adjacent gap is a whole hour. -/
def tsHourly : TS := [(0, 1), (3600, 2), (7200, 3), (10800, 4)]

/-- Five minute-spaced samples with an interior minimum 3 at 120. -/
def tsC5 : TS := [(0, 5), (60, 4), (120, 3), (180, 7), (240, 8)]

/-- The acceptance rule the re-check applies to a neighbourhood: at least 3
samples, and the recomputed extremum keeps the candidate locally optimal
(matching timestamp, or matching value against a candidate field). -/
def acceptLocallyOptimal (nb : TS) (ext : ℚ × Int) (mm : Mm) : Bool :=
  decide (3 ≤ nb.length) &&
    (match recomputeExtr nb mm with
     | none => false
     | some (nv, nt) => decide (nt = ext.2) || decide (nv = ext.1))

/-- The neighbourhood as the specification describes it: up to 5 samples
before and after the boundary index, truncated (not wrapped) at the ends of
the series. -/
def specNeighborhood (ts : TS) (i : ℕ) : TS := (ts.take (i + 6)).drop (i - 5)

/-- The amplitude of a row is present and strictly below the threshold. -/
def AmplitudeLt (r : Row) (t : ℚ) : Prop :=
  ∃ a b, r.max_val = some a ∧ r.min_val = some b ∧ a - b < t

/-- The expected result table of the C1 run: the third day is retained with
min_val 5 and max_val 0. -/
def tabC1 : List (Int × Row) :=
  [(0, ⟨some 5, some 10800, some 20, some 75600⟩),
   (86400, ⟨some 5, some 97200, some 20, some 162000⟩),
   (172800, ⟨some 5, some 183600, some 0, some 237600⟩)]

/-- A result table with one low-amplitude day, one day with a missing
minimum, and one wide-amplitude day. -/
def dfT : List (Int × Row) :=
  [(0, ⟨some 1, some 10, some 4, some 20⟩),
   (86400, ⟨none, none, some 4, some 20⟩),
   (172800, ⟨some 1, some 10, some 10, some 20⟩)]

/-- A two-day override table with all four cells populated. -/
def dfC2 : List (Int × PRow) :=
  [(0, ⟨.num 1, .time 100, .num 2, .time 200⟩),
   (86400, ⟨.num 3, .time 300, .num 4, .time 400⟩)]

/-- Three minute-spaced samples for the alignment witness. -/
def tsC6w : TS := [(0, 1), (60, 2), (120, 3)]

/-- Filtering twice with one predicate equals filtering once. -/
theorem filter_self_idem {α : Type} (p : α → Bool) (l : List α) :
    (l.filter p).filter p = l.filter p := by
  induction l with
  | nil => rfl
  | cons a tl ih =>
    by_cases h : p a <;> simp [List.filter_cons, h, ih]

/-- The Boolean drop condition of apply_threshold decides AmplitudeLt. -/
theorem ampLtB_iff (r : Row) (t : ℚ) : ampLtB r t = true ↔ AmplitudeLt r t := by
  unfold ampLtB AmplitudeLt
  cases hmax : r.max_val with
  | none => simp [hmax]
  | some a =>
    cases hmin : r.min_val with
    | none => simp [hmax, hmin]
    | some b => simp [hmax, hmin]

unseal Rat.mul Rat.add Rat.sub Rat.inv in
/-- C1: the claim says every day retained in the ResultTable with both
extrema present satisfies min_value ≤ max_value, the inconsistent days
being discarded before insertion.  On the three-day predictive run below
the code retains day 172800 with min_val 5 and max_val 0 both present: the
retention check spells the presence test with Python truthiness
(if maxVal and minVal and minVal > maxVal), so a located maximum of exactly
0.0 bypasses the comparison and the inconsistent day is inserted. -/
theorem find_diurnal_extrema_truthiness_bug :
    find_diurnal_extrema 1 cfgC1 tsC1 = .ok tabC1 ∧
    (172800, (⟨some 5, some 183600, some 0, some 237600⟩ : Row)) ∈ tabC1 ∧
    discardDay (some 5) (some 0) = false ∧ ¬ ((5 : ℚ) ≤ 0) := by
  refine ⟨by decide, by decide, by decide, by norm_num⟩

unseal Rat.mul Rat.add Rat.sub Rat.inv in
/-- C2: the claim says change_extrema_picks(day, max, new_extrema=(v, t))
stores v into max_val and t into max_time.  The assignment
value, time = new_extrema if isinstance(new_extrema, tuple) else None, None
binds value to the whole tuple and time to None, so the call below stores
the pair (166/5, 500) into max_val and None into max_time; the min fields
and the other day are left unchanged. -/
theorem change_extrema_picks_precedence_bug :
    change_extrema_picks dfC2 86400 .max (some (166/5, 500)) =
      .ok [(0, ⟨.num 1, .time 100, .num 2, .time 200⟩),
           (86400, ⟨.num 3, .time 300, .pairVT (166/5) 500, .pynone⟩)] ∧
    PyVal.pairVT (166/5) 500 ≠ PyVal.num (166/5) ∧
    PyVal.pynone ≠ PyVal.time 500 := by
  refine ⟨by decide, by decide, by decide⟩

unseal Rat.mul Rat.add Rat.sub Rat.inv in
/-- C3: the claim says a day whose minimum search finds nothing yields
None fields non-exceptionally, in particular with minimum-first and
maximum-next-day enabled.  On a signal whose single day resolves to no
data, the minimum search does return (None, None), but the extractor then
evaluates minTime + pd.Timedelta(hours=18) on a None minTime and the whole
call aborts with TypeError. -/
theorem find_diurnal_extrema_nofound_min_typeerror :
    get_real_extrema 1 tsTwoSamples (.period 0) Mm.min = .ok (none, none) ∧
    find_diurnal_extrema 1 cfgDefault tsTwoSamples = .error .typeError := by
  refine ⟨by decide, by decide⟩

/-- C4 counterexample: the claim describes the neighbourhood as up to 5
samples before and after the boundary index, truncated at the series ends.
For a boundary at index 0 of a 12-sample series that neighbourhood holds 6
samples and its recomputed minimum is the candidate itself, so the claim
accepts; the code slices ts[-5:5], the negative start wraps to position 7,
the slice is empty, and the candidate is rejected. -/
theorem bool_check_around_bound_wrap_counterexample :
    getLoc tsC4 0 = some 0 ∧
    acceptLocallyOptimal (specNeighborhood tsC4 0) ((5 : ℚ), (0 : Int)) Mm.min = true ∧
    bool_check_around_bound tsC4 0 ((5 : ℚ), (0 : Int)) Mm.min = .ok false := by
  refine ⟨by decide, by decide, by decide⟩

/-- C4 amended: the code's acceptance decision equals the locally-optimal
rule applied to the Python positional slice from i-5 to i+5 (with its
negative-index wrap), not to the truncated neighbourhood. -/
theorem bool_check_around_bound_pyslice_spec (ts : TS) (b : Int) (ext : ℚ × Int)
    (mm : Mm) (i : ℕ) (h : getLoc ts b = some i) :
    bool_check_around_bound ts b ext mm =
      .ok (acceptLocallyOptimal (pySlice ts ((i : Int) - 5) ((i : Int) + 5)) ext mm) := by
  simp only [bool_check_around_bound, acceptLocallyOptimal, h]
  by_cases hl : (pySlice ts ((i : Int) - 5) ((i : Int) + 5)).length < 3
  · rw [if_pos hl, decide_eq_false (by omega :
      ¬ 3 ≤ (pySlice ts ((i : Int) - 5) ((i : Int) + 5)).length), Bool.false_and]
  · rw [if_neg hl, decide_eq_true (by omega :
      3 ≤ (pySlice ts ((i : Int) - 5) ((i : Int) + 5)).length), Bool.true_and]
    cases hrc : recomputeExtr (pySlice ts ((i : Int) - 5) ((i : Int) + 5)) mm with
    | none => rfl
    | some p => rfl

/-- Witness for the amended C4 theorem at a mid-series boundary index. -/
theorem bool_check_around_bound_pyslice_spec_witness :
    bool_check_around_bound tsC4 360 ((11 : ℚ), (360 : Int)) Mm.min = .ok false := by
  rw [bool_check_around_bound_pyslice_spec tsC4 360 (11, 360) Mm.min 6 (by decide)]
  decide

/-- The loop of on_boundary returns True without consulting the re-check
when the candidate timestamp differs from both resolved edge samples. -/
theorem onBW_interior (ts : TS) (w : Int × Int) (extT s e : Int)
    (chk : Int → Except PyErr Bool)
    (h1 : resolveBound ts w true = .ok s) (h2 : resolveBound ts w false = .ok e)
    (hn1 : extT ≠ s) (hn2 : extT ≠ e) :
    on_boundaryW chk ts w extT = .ok true := by
  unfold on_boundaryW
  simp only [h1, h2, if_neg (fun hc : s = extT => hn1 hc.symm),
    if_neg (fun hc : e = extT => hn2 hc.symm), if_true]

/-- The loop of on_boundary stops with False when the candidate sits on the
resolved start edge and the re-check fails there: the end edge is never
consulted (the conclusion holds for every behaviour of the re-check away
from the start edge and even when the end edge cannot be resolved). -/
theorem onBW_start_fails (ts : TS) (w : Int × Int) (extT s : Int)
    (chk : Int → Except PyErr Bool)
    (h1 : resolveBound ts w true = .ok s) (heq : extT = s)
    (hchk : chk s = .ok false) :
    on_boundaryW chk ts w extT = .ok false := by
  subst heq
  unfold on_boundaryW
  simp only [h1, if_true]
  rw [hchk]
  rfl

/-- C5: a candidate extremum whose timestamp differs from both edges'
nearest in-range samples is accepted with no re-check consulted (the loop
result is True for every re-check function), and when the start edge is hit
and its re-check fails, the result is False for every re-check function
regardless of the end edge; the real Boundary Validator on_boundary
inherits the interior acceptance. -/
theorem on_boundary_interior_shortcircuit (ts : TS) (w : Int × Int)
    (extT s e : Int) :
    (∀ chk : Int → Except PyErr Bool,
      resolveBound ts w true = .ok s → resolveBound ts w false = .ok e →
      extT ≠ s → extT ≠ e → on_boundaryW chk ts w extT = .ok true) ∧
    (∀ chk : Int → Except PyErr Bool,
      resolveBound ts w true = .ok s → extT = s → chk s = .ok false →
      on_boundaryW chk ts w extT = .ok false) ∧
    (∀ (v : ℚ) (mm : Mm),
      resolveBound ts w true = .ok s → resolveBound ts w false = .ok e →
      extT ≠ s → extT ≠ e → on_boundary ts w (v, extT) mm = .ok true) :=
  ⟨fun chk h1 h2 hn1 hn2 => onBW_interior ts w extT s e chk h1 h2 hn1 hn2,
   fun chk h1 heq hchk => onBW_start_fails ts w extT s chk h1 heq hchk,
   fun v mm h1 h2 hn1 hn2 =>
     onBW_interior ts w extT s e (fun b => bool_check_around_bound ts b (v, extT) mm)
       h1 h2 hn1 hn2⟩

/-- Witness for C5 on a concrete five-sample series: the interior extremum
at 120 is accepted even under an always-failing re-check, and a candidate
on the start edge with a failing re-check is rejected. -/
theorem on_boundary_interior_shortcircuit_witness :
    on_boundaryW (fun _ => Except.ok false) tsC5 (0, 240) 120 = .ok true ∧
    on_boundaryW (fun _ => Except.ok false) tsC5 (0, 240) 0 = .ok false ∧
    on_boundary tsC5 (0, 240) ((3 : ℚ), (120 : Int)) Mm.min = .ok true :=
  ⟨(on_boundary_interior_shortcircuit tsC5 (0, 240) 120 0 240).1 _
     (by decide) (by decide) (by decide) (by decide),
   (on_boundary_interior_shortcircuit tsC5 (0, 240) 0 0 240).2.1 _
     (by decide) rfl rfl,
   (on_boundary_interior_shortcircuit tsC5 (0, 240) 120 0 240).2.2 3 Mm.min
     (by decide) (by decide) (by decide) (by decide)⟩

/-- C6 counterexample: on four hourly samples (more than 3 samples in the
slice) the claim says the resolver returns a resolution-aligned pair, but
every adjacent gap is a whole hour, the minutes and seconds components are
both zero and the 0s grid makes the rounding raise, so no pair is
returned. -/
theorem to_exact_indexing_hourly_counterexample :
    to_exact_indexing 1 (.pair [.ts 0, .ts 10800]) tsHourly = .error .valueError ∧
    2 < (labelSlice tsHourly 0 10800).length ∧
    ∀ o : Option (Int × Int),
      to_exact_indexing 1 (.pair [.ts 0, .ts 10800]) tsHourly ≠ .ok o := by
  have he : to_exact_indexing 1 (.pair [.ts 0, .ts 10800]) tsHourly =
      .error .valueError := by decide
  refine ⟨he, by decide, fun o hc => ?_⟩
  rw [he] at hc
  exact Except.noConfusion hc

/-- C6 amended: once the specification resolves to a timestamp pair (s, e),
a slice with fewer than 3 samples yields the no-data result; with at least
3 samples and the grid g built from the drawn adjacent gap, the resolver
returns (s rounded up to g, e rounded down to g) when g is nonzero, and
raises ValueError when the drawn gap is a whole number of hours (g = 0). -/
theorem to_exact_indexing_alignment (pick : ℕ) (ts : TS) (w : WinSpec) (s e : Int)
    (h : computeStartEnd w ts = .ok (.ts s, .ts e)) :
    (¬ 2 < (labelSlice ts s e).length → to_exact_indexing pick w ts = .ok none) ∧
    (∀ g : Int,
      2 < (labelSlice ts s e).length →
      g = gridRes
        (((labelSlice ts s e).getD
            (Min.min (Max.max 1 pick) ((labelSlice ts s e).length - 1)) (0, 0)).1 -
         ((labelSlice ts s e).getD
            (Min.min (Max.max 1 pick) ((labelSlice ts s e).length - 1) - 1) (0, 0)).1) →
      (g ≠ 0 → to_exact_indexing pick w ts = .ok (some (ceilG s g, floorG e g))) ∧
      (g = 0 → to_exact_indexing pick w ts = .error .valueError)) := by
  constructor
  · intro hlen
    simp only [to_exact_indexing, h, resolveAndAlign, sliceLo, sliceHi, if_neg hlen]
  · intro g hlen hg
    constructor
    · intro hgz
      simp only [to_exact_indexing, h, resolveAndAlign, sliceLo, sliceHi,
        if_pos hlen, bCeil, bFloor, ← hg, if_neg hgz]
    · intro hgz
      simp only [to_exact_indexing, h, resolveAndAlign, sliceLo, sliceHi,
        if_pos hlen, bCeil, bFloor, ← hg, hgz, if_pos]

/-- Witness for the amended C6 theorem: minute-spaced data aligns to the
one-minute grid. -/
theorem to_exact_indexing_alignment_witness :
    to_exact_indexing 1 (.pair [.ts 0, .ts 120]) tsC6w =
      .ok (some (ceilG 0 60, floorG 120 60)) := by
  exact ((to_exact_indexing_alignment 1 tsC6w (.pair [.ts 0, .ts 120]) 0 120
    (by decide)).2 60 (by decide) (by decide)).1 (by decide)

/-- C7: with a configured threshold t, a row survives apply_threshold
exactly when it was in the table and its amplitude is not both present and
strictly below t; filtering an already-filtered table changes nothing. -/
theorem apply_threshold_exact_idempotent (t : ℚ) (df : List (Int × Row)) :
    (∀ (d : Int) (r : Row),
      (d, r) ∈ apply_threshold (some t) df ↔ (d, r) ∈ df ∧ ¬ AmplitudeLt r t) ∧
    apply_threshold (some t) (apply_threshold (some t) df) =
      apply_threshold (some t) df := by
  constructor
  · intro d r
    rw [show apply_threshold (some t) df = df.filter (fun p => ! ampLtB p.2 t) from rfl,
      List.mem_filter]
    constructor
    · rintro ⟨hm, hb⟩
      refine ⟨hm, fun hA => ?_⟩
      rw [(ampLtB_iff r t).mpr hA] at hb
      exact absurd hb (by decide)
    · rintro ⟨hm, hA⟩
      refine ⟨hm, ?_⟩
      have hfalse : ampLtB r t = false := by
        cases hab : ampLtB r t
        · rfl
        · exact absurd ((ampLtB_iff r t).mp hab) hA
      rw [hfalse]
      rfl
  · exact filter_self_idem _ df

unseal Rat.sub in
/-- Witness for C7: the wide-amplitude row survives and re-filtering the
filtered table is the identity. -/
theorem apply_threshold_exact_idempotent_witness :
    ((172800 : Int), (⟨some 1, some 10, some 10, some 20⟩ : Row)) ∈
      apply_threshold (some 5) dfT ∧
    apply_threshold (some 5) (apply_threshold (some 5) dfT) =
      apply_threshold (some 5) dfT :=
  ⟨((apply_threshold_exact_idempotent 5 dfT).1 172800 _).mpr
    ⟨by decide, fun hA => absurd ((ampLtB_iff _ 5).mpr hA) (by decide)⟩,
   (apply_threshold_exact_idempotent 5 dfT).2⟩

/-- C8 counterexample: the claim says invalid calibration data fails with
InvalidCalibration (the ValueError of predict_extrema); on a signal whose
first window days hold only two samples the calibration window resolves to
the no-data None, and unpacking it raises TypeError instead. -/
theorem predict_extrema_nodata_counterexample :
    predict_extrema 1 cfgDefault tsTwoSamples = .error .typeError ∧
    to_exact_indexing 1 (.nat cfgDefault.window) tsTwoSamples = .ok none ∧
    PyErr.typeError ≠ PyErr.valueError := by
  refine ⟨by decide, by decide, by decide⟩

/-- C8 amended: when the calibration window resolves to no data the
predictor fails with TypeError (from unpacking None); when it resolves and
the per-day loop collects the two rounded-hour lists, the predictor returns
the 3-decimal rounded arithmetic mean of each list. -/
theorem predict_extrema_mean_or_typeerror (pick : ℕ) (cfg : Config) (ts : TS) :
    (to_exact_indexing pick (.nat cfg.window) ts = .ok none →
      predict_extrema pick cfg ts = .error .typeError) ∧
    (∀ (s e : Int) (l1 l2 : List Int),
      to_exact_indexing pick (.nat cfg.window) ts = .ok (some (s, e)) →
      (labelSlice ts s e).isEmpty = false →
      collectOccurs pick cfg (labelSlice ts s e)
        (uniqDays ((labelSlice ts s e).map (fun p => dayStart p.1))) = .ok (l1, l2) →
      l1.isEmpty = false → l2.isEmpty = false →
      predict_extrema pick cfg ts =
        .ok (round3 (intListMean l1), round3 (intListMean l2))) := by
  constructor
  · intro h
    simp only [predict_extrema, h]
  · intro s e l1 l2 h hne hcol h1 h2
    simp only [predict_extrema, h, hne, hcol, mean_occurance, h1, h2,
      Bool.false_eq_true, if_false]

unseal Rat.mul Rat.add Rat.sub Rat.inv in
/-- Witness for the amended C8 theorem on the three-day signal: both
calibration days put the minimum at hour 3 and the maximum at hour 21. -/
theorem predict_extrema_mean_witness :
    predict_extrema 1 cfgC1 tsC1 =
      .ok (round3 (intListMean [3, 3]), round3 (intListMean [21, 21])) := by
  exact (predict_extrema_mean_or_typeerror 1 cfgC1 tsC1).2 0 171000 [3, 3] [21, 21]
    (by decide) (by decide) (by decide) (by decide) (by decide)

/-- C9 counterexample: the claim says a pair mixing a timestamp bound with
a non-timestamp bound fails with TypeMismatch (a TypeError); a
(Timestamp, date-string) pair is never type-checked: it falls through to
slicing and here returns the no-data result with no error at all. -/
theorem to_exact_indexing_mixed_counterexample :
    to_exact_indexing 1 (.pair [.ts 0, .str (.dateStr 0)]) tsTwoSamples = .ok none ∧
    ∀ er : PyErr,
      to_exact_indexing 1 (.pair [.ts 0, .str (.dateStr 0)]) tsTwoSamples ≠
        .error er := by
  have he : to_exact_indexing 1 (.pair [.ts 0, .str (.dateStr 0)]) tsTwoSamples =
      .ok none := by decide
  refine ⟨he, fun er hc => ?_⟩
  rw [he] at hc
  exact Except.noConfusion hc

/-- C9 amended: an explicit timestamp pair with end at or before start
fails with InvalidWindow (ValueError), as does a tuple/list of the wrong
length; a specification of a malformed type fails with an unbound-local
NameError, not InvalidWindow; a (Timestamp, string) pair is never rejected
with a TypeError, while mixing a timestamp with a non-string, non-timestamp
bound raises TypeError only later, inside slicing. -/
theorem to_exact_indexing_validation (pick : ℕ) (ts : TS) :
    (∀ s e : Int, e ≤ s →
      to_exact_indexing pick (.pair [.ts s, .ts e]) ts = .error .valueError) ∧
    (∀ l : List BoundV, l.length ≠ 2 →
      to_exact_indexing pick (.pair l) ts = .error .valueError) ∧
    to_exact_indexing pick .other ts = .error .nameError ∧
    (∀ t d : Int,
      to_exact_indexing pick (.pair [.ts t, .str (.dateStr d)]) ts ≠
        .error .typeError) ∧
    (∀ t : Int,
      to_exact_indexing pick (.pair [.ts t, .other]) ts = .error .typeError) := by
  refine ⟨?_, ?_, rfl, ?_, fun t => rfl⟩
  · intro s e hle
    simp only [to_exact_indexing, computeStartEnd, start_before_end,
      if_neg (not_lt.mpr hle)]
  · intro l hl
    match l with
    | [] => rfl
    | [_] => rfl
    | [_, _] => exact absurd rfl hl
    | _ :: _ :: _ :: _ => rfl
  · intro t d
    simp only [to_exact_indexing, computeStartEnd, resolveAndAlign, sliceLo,
      sliceHi, bCeil, bFloor]
    split_ifs <;> simp

/-- Witness for the amended C9 theorem: an inverted pair and an empty
specification both raise the InvalidWindow ValueError. -/
theorem to_exact_indexing_validation_witness :
    to_exact_indexing 1 (.pair [.ts 100, .ts 50]) tsC4 = .error .valueError ∧
    to_exact_indexing 1 (.pair []) tsC4 = .error .valueError :=
  ⟨(to_exact_indexing_validation 1 tsC4).1 100 50 (by norm_num),
   (to_exact_indexing_validation 1 tsC4).2.1 [] (by decide)⟩

/-- C10: a row with a missing minimum or maximum survives the threshold
filter for every configured threshold: its NaN amplitude never compares
strictly below the threshold. -/
theorem apply_threshold_keeps_missing (t : ℚ) (df : List (Int × Row)) (d : Int)
    (r : Row) (hmiss : r.min_val = none ∨ r.max_val = none)
    (hmem : (d, r) ∈ df) :
    (d, r) ∈ apply_threshold (some t) df := by
  have hb : ampLtB r t = false := by
    unfold ampLtB
    rcases hmiss with h | h
    · rw [h]; cases r.max_val <;> rfl
    · rw [h]
  exact List.mem_filter.mpr ⟨hmem, by simp only [hb]; rfl⟩

/-- Witness for C10: the row with the missing minimum survives a threshold
of 5. -/
theorem apply_threshold_keeps_missing_witness :
    ((86400 : Int), (⟨none, none, some 4, some 20⟩ : Row)) ∈
      apply_threshold (some 5) dfT :=
  apply_threshold_keeps_missing 5 dfT 86400 ⟨none, none, some 4, some 20⟩
    (Or.inl rfl) (by decide)
